/-
  Verification of the protest_imf_datapull normalization layer.

  Shallow embedding of the Python modules of the repository:
    - macro_data_api.py            (country resolver, IMF CompactData adapter,
                                    World Bank adapter)
    - macro_data_api_datamapper.py (IMF DataMapper adapter)

  External library behaviour that the code relies on is passed in as explicit
  parameters rather than being re-implemented:
    - pycountry fuzzy search  : a function String -> Except String (iso2, iso3, name)
      (.error models the LookupError raised when no match exists);
    - the Python float(...) builtin applied to a string : a function
      String -> Option Rat (none models the ValueError raised on a bad literal);
    - the Python int(...) builtin applied to a string : a function String -> Int
      (year keys of real DataMapper payloads always parse);
    - the HTTP transport : the decoded 2xx response is an argument (non-2xx
      responses abort via raise_for_status before any code modelled here runs).

  Machine integers are modelled as Int/Nat; the page counters and page totals
  of the World Bank loop are small positive counts, modelled as Nat (a
  non-positive reported total behaves exactly like total 0: the first page
  check `page >= total_pages` then stops the loop at page 1).
-/
import Mathlib

/-! ## Country resolver (macro_data_api.py, section 1) -/

/-- The curated raw country-name list `RAW_COUNTRIES` from macro_data_api.py.
Note the entry with a trailing space. -/
def RAW_COUNTRIES : List String :=
  ["Afghanistan", "Albania", "Argentina", "Armenia", "Austria",
   "Azerbaijan", "Burundi", "Belgium", "Burkina Faso", "Bangladesh",
   "Bulgaria", "Bahrain", "Belarus", "Bolivia", "Brazil", "Canada",
   "Switzerland", "Chile", "China (inc. Hong Kong SAR results)",
   "Cameroon", "D.R. Congo", "Colombia", "Cyprus", "Czech Republic",
   "Germany", "Denmark", "Algeria", "Ecuador", "Egypt", "Spain",
   "Estonia", "Ethiopia", "Finland", "France", "United Kingdom",
   "Georgia", "Ghana", "Guinea", "Greece", "Guatemala",
   "Hong Kong SAR (inc. China results)", "Honduras", "Haiti",
   "Hungary", "Indonesia", "India", "Iran", "Iraq", "Israel", "Italy",
   "Jamaica", "Jordan", "Kazakhstan", "Kenya", "Kyrgyz Republic",
   "Cambodia", "Korea", "Kosovo", "Kuwait", "Lebanon", "Libya",
   "Sri Lanka", "Lithuania", "Latvia", "Morocco", "Moldova",
   "Madagascar", "Mexico", "North Macedonia ", "Mali", "Myanmar",
   "Montenegro, Rep. of", "Mauritania", "Malawi", "Malaysia", "Niger",
   "Nigeria", "Nicaragua", "Netherlands", "Nepal", "New Zealand",
   "Pakistan", "Panama", "Peru", "Philippines", "Papua New Guinea",
   "Poland", "Puerto Rico", "Portugal", "Paraguay", "Qatar",
   "Romania", "Russia", "Rwanda", "Saudi Arabia", "Sudan", "Senegal",
   "El Salvador", "Somalia", "Serbia", "Slovak Republic", "Slovenia",
   "Sweden", "Eswatini", "Syria", "Chad", "Togo", "Thailand",
   "Tajikistan", "Timor-Leste, Dem. Rep. of", "Tunisia", "Turkey",
   "Taiwan Province of China", "Tanzania", "Uganda", "Ukraine",
   "United States", "Uzbekistan", "Venezuela", "Vietnam",
   "West Bank & Gaza", "Yemen", "South Africa", "Zambia", "Zimbabwe"]

/-- The `MANUAL_COUNTRY_OVERRIDES` dict: raw name -> (iso2, iso3, official name).
A Python dict keyed by strings, modelled as an association list; membership and
lookup agree with dict semantics because the keys are pairwise distinct. -/
def MANUAL_COUNTRY_OVERRIDES : List (String × (String × String × String)) :=
  [("China (inc. Hong Kong SAR results)", ("CN", "CHN", "China")),
   ("D.R. Congo", ("CD", "COD", "Congo, The Democratic Republic of the")),
   ("Hong Kong SAR (inc. China results)", ("HK", "HKG", "Hong Kong")),
   ("Montenegro, Rep. of", ("ME", "MNE", "Montenegro")),
   ("Timor-Leste, Dem. Rep. of", ("TL", "TLS", "Timor-Leste")),
   ("Taiwan Province of China", ("TW", "TWN", "Taiwan, Province of China")),
   ("West Bank & Gaza", ("PS", "PSE", "Palestine, State of")),
   ("Korea", ("KR", "KOR", "Korea, Republic of")),
   ("Kosovo", ("XK", "XKX", "Kosovo")),
   ("North Macedonia ", ("MK", "MKD", "North Macedonia"))]

/-- The `CountryCode` dataclass of macro_data_api.py. -/
structure CountryCode where
  raw_name : String
  iso2 : String
  iso3 : String
  official_name : String
deriving DecidableEq, Repr

/-- Python `str.strip()`: remove leading and trailing whitespace.  Modelled
on the character list (the names involved are ASCII, where Python and this
model agree). -/
def pyStrip (s : String) : String :=
  ⟨((s.data.dropWhile Char.isWhitespace).reverse.dropWhile Char.isWhitespace).reverse⟩

/-- Model of `resolve_country` from macro_data_api.py.  `fuzzy` models
`pycountry.countries.search_fuzzy(raw)[0]` projected to
`(alpha_2, alpha_3, name)`; `.error msg` models the exception raised when no
match is found.  The code strips the input and checks the override dict with
the STRIPPED name before falling through to the fuzzy search. -/
def resolve_country (fuzzy : String → Except String (String × String × String))
    (raw_name : String) : Except String CountryCode :=
  let raw := pyStrip raw_name
  match MANUAL_COUNTRY_OVERRIDES.lookup raw with
  | some (iso2, iso3, official) =>
      .ok { raw_name := raw_name, iso2 := iso2, iso3 := iso3, official_name := official }
  | none =>
      match fuzzy raw with
      | .ok (a2, a3, nm) =>
          .ok { raw_name := raw_name, iso2 := a2, iso3 := a3, official_name := nm }
      | .error e => .error e

/-- One row of the table built by `build_country_table`: iso codes are
nullable because unresolved names get a null/null sentinel row. -/
structure CountryRow where
  raw_name : String
  iso2 : Option String
  iso3 : Option String
  official_name : String
deriving DecidableEq, Repr

/-- Model of `build_country_table` from macro_data_api.py: one row is appended per
input name; a `resolve_country` failure is caught and turned into a sentinel
row whose official_name is the string "UNRESOLVED: " followed by the
exception text. -/
def build_country_table (fuzzy : String → Except String (String × String × String))
    (raw_names : List String) : List CountryRow :=
  raw_names.map fun n =>
    match resolve_country fuzzy n with
    | .ok c =>
        { raw_name := c.raw_name, iso2 := some c.iso2, iso3 := some c.iso3,
          official_name := c.official_name }
    | .error exc =>
        { raw_name := n, iso2 := none, iso3 := none,
          official_name := "UNRESOLVED: " ++ exc }

/-! ## IMF CompactData adapter (macro_data_api.py, section 2) -/

def IMF_JSON_BASE_URL : String := "https://dataservices.imf.org/REST/SDMX_JSON.svc"

/-- Python `sorted(set(l))` for a list of strings: deduplicate, then sort
lexicographically (String has a linear order mirroring the Python code-point
comparison on these ASCII codes). -/
def pySortedSet (l : List String) : List String :=
  (l.dedup).insertionSort (· ≤ ·)

/-- Errors raised by the CompactData adapter, structured so that the parts
interpolated into the Python exception messages are explicit fields:
`invalidRequest` models `ValueError("iso2_list is empty")`;
`notJson url leading` models
`ValueError(f"IMF response was not valid JSON. URL={used_url} first 300 chars={raw_text[:300]!r}")`. -/
inductive ImfError where
  | invalidRequest (msg : String)
  | notJson (url : String) (bodyLeading : String)
deriving DecidableEq, Repr

/-- Model of `_build_imf_compact_url`: the key is freq.AREAS.indicator with AREAS the
upper-cased, deduplicated, sorted area codes joined with plus signs.
`pyUpper` models the Python `str.upper()` builtin applied to each code. -/
def build_imf_compact_url (pyUpper : String → String)
    (dataset freq indicator : String) (iso2_list : List String)
    (start_period end_period : String) :
    Except ImfError (String × List (String × String)) :=
  if iso2_list.isEmpty then .error (.invalidRequest "iso2_list is empty")
  else
    let areas := "+".intercalate (pySortedSet (iso2_list.map pyUpper))
    let key := freq ++ "." ++ areas ++ "." ++ indicator
    let url := IMF_JSON_BASE_URL ++ "/CompactData/" ++ dataset ++ "/" ++ key
    .ok (url, [("startPeriod", start_period), ("endPeriod", end_period)])

/-- One `Obs` node: the attributes read by the parser.  SDMX CompactData JSON
attribute values are strings, so `@OBS_VALUE` is an optional string (absent
key modelled as none). -/
structure CompactObs where
  timePeriod : Option String
  obsValue : Option String
deriving DecidableEq, Repr

/-- The `Obs` field of a series: missing key (`s.get("Obs", [])` defaults to
an empty list), a single JSON object, or a JSON list. -/
inductive ObsField where
  | missing
  | one (o : CompactObs)
  | many (l : List CompactObs)
deriving DecidableEq, Repr

/-- One `Series` node with the attributes the parser reads. -/
structure SeriesNode where
  freq : Option String
  refArea : Option String
  indicator : Option String
  obs : ObsField
deriving DecidableEq, Repr

/-- The `Series` value under DataSet: a single JSON object or a JSON list. -/
inductive SeriesVal where
  | one (s : SeriesNode)
  | many (l : List SeriesNode)
deriving DecidableEq, Repr

/-- The `DataSet` node: the `Series` key may be absent. -/
structure DataSetNode where
  series : Option SeriesVal
deriving DecidableEq, Repr

/-- The `CompactData` node: the `DataSet` key may be absent
(`.get("DataSet", {})` then yields an empty dict whose `Series` is absent). -/
structure CompactDataNode where
  dataSet : Option DataSetNode
deriving DecidableEq, Repr

/-- A parsed CompactData JSON payload: the `CompactData` key may be absent
(`.get("CompactData", {})`). -/
structure CompactPayload where
  compactData : Option CompactDataNode
deriving DecidableEq, Repr

/-- One row dict appended by `imf_compact_to_df`. -/
structure CompactRow where
  freq : Option String
  ref_area : Option String
  indicator : Option String
  time_period : Option String
  value : Option Rat
deriving DecidableEq, Repr

/-- A pandas DataFrame, reduced to what the claims observe: its column list
and its row list. -/
structure DataFrame (ρ : Type) where
  cols : List String
  rows : List ρ
deriving DecidableEq, Repr

/-- The fixed CompactData column set. -/
def compactCols : List String :=
  ["freq", "ref_area", "indicator", "time_period", "value"]

/-- Model of `pd.DataFrame(rows)` where every row is a dict with exactly the
CompactData keys in declaration order: pandas infers the columns from the
row dicts, and an empty row list yields a frame with no columns. -/
def pdDataFrameCompact (rows : List CompactRow) : DataFrame CompactRow :=
  { cols := if rows.isEmpty then [] else compactCols, rows := rows }

/-- The per-observation value handling of `imf_compact_to_df`:
`if value in (None, ""): val = None else: try: val = float(value)
except ValueError: val = None`.  `pfloat` models `float` on a string, with
none for the ValueError case. -/
def parseObsValue (pfloat : String → Option Rat) (value : Option String) : Option Rat :=
  match value with
  | none => none
  | some s => if s = "" then none else pfloat s

/-- Normalization of the `Obs` field to a list
(`obs = s.get("Obs", []); if isinstance(obs, dict): obs = [obs]`). -/
def obsListOf : ObsField → List CompactObs
  | .missing => []
  | .one o => [o]
  | .many l => l

/-- The inner loop of `imf_compact_to_df`: the rows contributed by one
series node, one row per observation. -/
def seriesRows (pfloat : String → Option Rat) (s : SeriesNode) : List CompactRow :=
  (obsListOf s.obs).map fun ob =>
    { freq := s.freq, ref_area := s.refArea, indicator := s.indicator,
      time_period := ob.timePeriod,
      value := parseObsValue pfloat ob.obsValue }

/-- The `Series` node reached through the defaulting chain
`json_obj.get("CompactData", {}).get("DataSet", {}).get("Series")`. -/
def compactSeriesOf (json_obj : CompactPayload) : Option SeriesVal :=
  (json_obj.compactData.bind (fun c => c.dataSet)).bind (fun d => d.series)

/-- Model of `imf_compact_to_df` from macro_data_api.py. -/
def imf_compact_to_df (pfloat : String → Option Rat) (json_obj : CompactPayload) :
    DataFrame CompactRow :=
  match compactSeriesOf json_obj with
  | none => { cols := compactCols, rows := [] }
  | some sv =>
      let series_list := match sv with
        | .one s => [s]
        | .many l => l
      pdDataFrameCompact (series_list.flatMap (seriesRows pfloat))

/-- A decoded 2xx HTTP response for the CompactData endpoint: the raw body
text, the result of `resp.json()` (none when the body is not valid JSON),
and `resp.url`. -/
structure HttpTextResponse where
  text : String
  json : Option CompactPayload
  finalUrl : String

/-- Model of `imf_compact_request_raw`: builds the URL, performs the request through
the transport `http`, and returns (parsed JSON or none, raw text, final URL).
The ValueError of the URL builder propagates. -/
def imf_compact_request_raw (pyUpper : String → String)
    (http : String → List (String × String) → HttpTextResponse)
    (dataset freq indicator : String) (iso2_list : List String)
    (start_period end_period : String) :
    Except ImfError (Option CompactPayload × String × String) :=
  match build_imf_compact_url pyUpper dataset freq indicator iso2_list start_period end_period with
  | .error e => .error e
  | .ok (url, params) =>
      let resp := http url params
      .ok (resp.json, resp.text, resp.finalUrl)

/-- Model of `imf_compact_request`: raises ValueError (modelled as `.notJson`, whose
fields carry the URL and the first 300 characters of the body interpolated
into the Python message) when the body did not parse as JSON. -/
def imf_compact_request (pyUpper : String → String)
    (http : String → List (String × String) → HttpTextResponse)
    (dataset freq indicator : String) (iso2_list : List String)
    (start_period end_period : String) :
    Except ImfError CompactPayload :=
  match imf_compact_request_raw pyUpper http dataset freq indicator iso2_list start_period end_period with
  | .error e => .error e
  | .ok (json_obj, raw_text, used_url) =>
      match json_obj with
      | none => .error (.notJson used_url (raw_text.take 300))
      | some j => .ok j

/-- Model of `fetch_imf_series`: calls `imf_compact_request_raw` directly; when the
body was not valid JSON it builds an EMPTY fixed-column DataFrame instead of
raising.  The `return_raw_json` variants are modelled by always returning
(df, raw_text); the False case just projects the first component. -/
def fetch_imf_series (pyUpper : String → String) (pfloat : String → Option Rat)
    (http : String → List (String × String) → HttpTextResponse)
    (dataset freq indicator : String) (countries_iso2 : List String)
    (start_period end_period : String) :
    Except ImfError (DataFrame CompactRow × String) :=
  match imf_compact_request_raw pyUpper http dataset freq indicator countries_iso2 start_period end_period with
  | .error e => .error e
  | .ok (json_obj, raw_text, _) =>
      let df := match json_obj with
        | none => { cols := compactCols, rows := [] }
        | some j => imf_compact_to_df pfloat j
      .ok (df, raw_text)

/-! ## IMF DataMapper adapter (macro_data_api_datamapper.py) -/

def IMF_DM_BASE_URL : String := "https://www.imf.org/external/datamapper/api/v1"

/-- The HTTP requests an adapter call issues, in order.  The three metadata
requests are the GETs of `imf_dm_ref_areas` against the countries / regions /
groups endpoints. -/
inductive DMRequest where
  | data (url : String) (params : List (String × String))
  | metaCountries
  | metaRegions
  | metaGroups
deriving DecidableEq, Repr

/-- One row of the reference-area table: `{"code": code, "type": type_name}`
updated with the endpoint metadata (which may or may not carry a label). -/
structure RefAreaRow where
  code : String
  label : Option String
  type : String
deriving DecidableEq, Repr

/-- The `_fetch` helper inside `imf_dm_ref_areas`: one endpoint response
(code -> optional label) turned into rows tagged with the type name. -/
def dmFetchEndpoint (resp : List (String × Option String)) (type_name : String) :
    List RefAreaRow :=
  resp.map fun cl => { code := cl.1, label := cl.2, type := type_name }

/-- Model of `imf_dm_ref_areas`: concatenates the countries, regions and groups tables
(pd.concat) and issues one GET per endpoint.  The three endpoint responses
are transport parameters. -/
def imf_dm_ref_areas (countriesResp regionsResp groupsResp : List (String × Option String)) :
    List RefAreaRow × List DMRequest :=
  (dmFetchEndpoint countriesResp "country" ++ dmFetchEndpoint regionsResp "region"
     ++ dmFetchEndpoint groupsResp "group",
   [.metaCountries, .metaRegions, .metaGroups])

/-- A JSON value sitting in the year -> value map of a DataMapper payload. -/
inductive DMVal where
  | null
  | num (q : Rat)
  | str (s : String)
  | other
deriving DecidableEq, Repr

/-- The per-entry value handling of `imf_dm_fetch_indicator`:
`if val is None: value = None else: try: value = float(val)
except (TypeError, ValueError): value = None`.  `float` of a JSON number is
that number; of a string it is `pfloat`; of any other value it raises
TypeError, which is caught. -/
def dmParseValue (pfloat : String → Option Rat) : DMVal → Option Rat
  | .null => none
  | .num q => some q
  | .str s => pfloat s
  | .other => none

/-- A parsed DataMapper payload: the `values` dict maps an indicator code to
a dict from ref-area code to a per-year series.  A series value that is not
a dict (skipped by the isinstance check) is modelled as none. -/
structure DMPayload where
  values : List (String × List (String × Option (List (String × DMVal))))
deriving Repr

/-- A row dict built by the parsing loop (before labels are attached). -/
structure DMRowBase where
  indicator : String
  refarea : String
  year : Int
  value : Option Rat
deriving DecidableEq, Repr

/-- A row of the final DataMapper frame, after the left merge. -/
structure DMRow where
  indicator : String
  refarea : String
  year : Int
  value : Option Rat
  label : Option String
  type : Option String
deriving DecidableEq, Repr

/-- The row-building loops of `imf_dm_fetch_indicator`: one row per
(ref_code, year) entry of every dict-valued series; non-dict series are
skipped by the isinstance guard.  `pint` models `int(year_str)`. -/
def dmRawRows (pfloat : String → Option Rat) (pint : String → Int) (indicator : String)
    (series_dict : List (String × Option (List (String × DMVal)))) : List DMRowBase :=
  series_dict.flatMap fun e =>
    match e.2 with
    | none => []
    | some items => items.map fun it =>
        { indicator := indicator, refarea := e.1, year := pint it.1,
          value := dmParseValue pfloat it.2 }

/-- Model of `df.merge(ref_table[["code","label","type"]], how="left",
left_on="refarea", right_on="code")` followed by dropping the code column: a
left row with no matching code keeps null label/type; a left row with
matches yields one output row per matching reference row, in table order. -/
def leftMergeRefArea (rows : List DMRowBase) (ref : List RefAreaRow) : List DMRow :=
  rows.flatMap fun r =>
    match ref.filter (fun t => t.code == r.refarea) with
    | [] => [{ indicator := r.indicator, refarea := r.refarea, year := r.year,
               value := r.value, label := none, type := none }]
    | ms => ms.map fun t =>
        { indicator := r.indicator, refarea := r.refarea, year := r.year,
          value := r.value, label := t.label, type := some t.type }

/-- Python `list(range(a, b))` on ints. -/
def pyRange (a b : Int) : List Int :=
  (List.range (b - a).toNat).map fun i => a + (i : Int)

/-- The `periods` year-list construction of `imf_dm_fetch_indicator`:
nothing when neither bound is given; 1900..end_year when only the end is
given; `range(start_year, start_year + 1)` when only the start is given;
start..end when both are given. -/
def dmPeriods (start_year end_year : Option Int) : Option (List Int) :=
  match start_year, end_year with
  | none, none => none
  | none, some e => some (pyRange 1900 (e + 1))
  | some s, none => some (pyRange s (s + 1))
  | some s, some e => some (pyRange s (e + 1))

/-- The final column order selected by `imf_dm_fetch_indicator`. -/
def dmCols : List String :=
  ["indicator", "refarea", "year", "value", "label", "type"]

/-- The data-request URL of `imf_dm_fetch_indicator`:
`/api/v1/{indicator}/{ref1}/{ref2}/...` (ref areas only appended when the
list is truthy, i.e. present and non-empty). -/
def dmRequestUrl (indicator : String) (ref_areas : Option (List String)) : String :=
  let parts : List String :=
    match ref_areas with
    | some l => if l.isEmpty then [indicator] else indicator :: l
    | none => [indicator]
  IMF_DM_BASE_URL ++ "/" ++ "/".intercalate parts

/-- The query parameters of the data request: a comma-joined `periods` list
when a year bound was supplied, nothing otherwise. -/
def dmRequestParams (start_year end_year : Option Int) : List (String × String) :=
  match dmPeriods start_year end_year with
  | none => []
  | some years => [("periods", ",".intercalate (years.map toString))]

/-- Model of `imf_dm_fetch_indicator` from macro_data_api_datamapper.py, returning the
DataFrame together with the ordered list of HTTP requests the call issued.
Transport parameters: `dataResp` is the decoded JSON of the data GET;
`countriesResp`/`regionsResp`/`groupsResp` are the decoded metadata endpoint
bodies consumed by `imf_dm_ref_areas` (only requested on the label-attaching
path).  The two empty-result early returns reproduce the pandas shapes:
`pd.DataFrame(columns=[...])` keeps the fixed six columns, while
`pd.DataFrame([]).assign(label=pd.NA, type=pd.NA)` has only the two assigned
columns. -/
def imf_dm_fetch_indicator (pfloat : String → Option Rat) (pint : String → Int)
    (countriesResp regionsResp groupsResp : List (String × Option String))
    (dataResp : DMPayload)
    (indicator : String) (ref_areas : Option (List String))
    (start_year end_year : Option Int) :
    DataFrame DMRow × List DMRequest :=
  let url := dmRequestUrl indicator ref_areas
  let params := dmRequestParams start_year end_year
  let log : List DMRequest := [.data url params]
  match dataResp.values with
  | [] => ({ cols := dmCols, rows := [] }, log)
  | v :: vs =>
      let series_dict :=
        match (v :: vs).lookup indicator with
        | some sd => sd
        | none => v.2
      let rows := dmRawRows pfloat pint indicator series_dict
      if rows.isEmpty then
        ({ cols := ["label", "type"], rows := [] }, log)
      else
        let fetched := imf_dm_ref_areas countriesResp regionsResp groupsResp
        ({ cols := dmCols, rows := leftMergeRefArea rows fetched.1 },
         log ++ fetched.2)

/-! ## World Bank adapter (macro_data_api.py, section 3) -/

/-- One observation dict of a World Bank data page, restricted to the keys
the loop reads: `obs["country"]["value"]`, `obs["countryiso3code"]`,
`obs["indicator"]["id"]`, `obs["date"]`, `obs["value"]`. -/
structure WBObsEntry where
  countryValue : String
  countryIso3 : String
  indicatorId : String
  date : String
  value : Option Rat
deriving DecidableEq, Repr

/-- One row dict appended by the World Bank loop. -/
structure WBRow where
  country : String
  iso3 : String
  indicator : String
  date : String
  value : Option Rat
deriving DecidableEq, Repr

/-- The row built from one observation. -/
def wbRowOf (o : WBObsEntry) : WBRow :=
  { country := o.countryValue, iso3 := o.countryIso3, indicator := o.indicatorId,
    date := o.date, value := o.value }

/-- A decoded page payload.  none models every immediate-break shape
(`not payload or len(payload) < 2 or payload[1] is None`); some (t, data)
models `[meta, data]` with a non-null data array, where t is
`int(meta.get("pages", 1))`. -/
abbrev WBPage : Type := Option (Nat × List WBObsEntry)

/-- The `while True` pagination loop of `wb_fetch_indicator`, with explicit
fuel: none means the fuel ran out before the loop broke (modelling
divergence).  Arguments after the fuel: current page (1-based), accumulated
rows, number of requests issued so far.  Per iteration: one GET, append the
rows of the page, then break when the page number has reached the reported total,
else advance to the next page. -/
def wb_fetch_loop (resp : Nat → WBPage) :
    Nat → Nat → List WBRow → Nat → Option (List WBRow × Nat)
  | 0, _, _, _ => none
  | fuel + 1, page, acc, reqs =>
      match resp page with
      | none => some (acc, reqs + 1)
      | some (total_pages, data) =>
          let acc2 := acc ++ data.map wbRowOf
          if total_pages ≤ page then some (acc2, reqs + 1)
          else wb_fetch_loop resp fuel (page + 1) acc2 (reqs + 1)

/-- The rows a given page contributes: its mapped data rows, or nothing for
a break-shaped payload. -/
def wbPageData (resp : Nat → WBPage) (p : Nat) : List WBRow :=
  match resp p with
  | none => []
  | some td => td.2.map wbRowOf

/-! ## Helper lemmas -/

lemma pySortedSet_perm_eq {l₁ l₂ : List String} (h : l₁.Perm l₂) :
    pySortedSet l₁ = pySortedSet l₂ := by
  apply List.eq_of_perm_of_sorted (r := (· ≤ ·))
  · exact ((List.perm_insertionSort _ _).trans h.dedup).trans
      (List.perm_insertionSort _ _).symm
  · exact List.sorted_insertionSort _ _
  · exact List.sorted_insertionSort _ _

lemma dmPeriods_start_only (s : Int) : dmPeriods (some s) none = some [s] := by
  simp only [dmPeriods, pyRange]
  have h1 : (s + 1 - s).toNat = 1 := by omega
  rw [h1]
  simp [List.range_succ]

lemma leftMergeRefArea_ne_nil {rows : List DMRowBase} (ref : List RefAreaRow)
    (h : rows ≠ []) : leftMergeRefArea rows ref ≠ [] := by
  match rows with
  | [] => exact absurd rfl h
  | r :: rest =>
      simp only [leftMergeRefArea, List.flatMap_cons]
      intro happ
      have h1 := (List.append_eq_nil.mp happ).1
      rcases hfil : ref.filter (fun t => t.code == r.refarea) with _ | ⟨t, ts⟩
      · rw [hfil] at h1
        simp at h1
      · rw [hfil] at h1
        simp at h1

/-! ## Claim theorems -/

/-- Claim C2: for a non-empty area list, the CompactData request key built by
the URL builder is freq.AREAS.indicator where AREAS is the upper-cased,
deduplicated, sorted set of codes joined with plus signs (the second conjunct
states that pySortedSet is sorted, duplicate-free, and carries exactly the
elements of the input); and any two input lists whose upper-cased forms are
permutations of one another produce identical requests, so the key is
invariant under reordering and case changes of the same code set. -/
theorem imf_compact_key_deterministic (pyUpper : String → String)
    (dataset freq indicator start_period end_period : String) :
    (∀ iso2_list : List String, iso2_list ≠ [] →
      build_imf_compact_url pyUpper dataset freq indicator iso2_list start_period end_period =
        .ok (IMF_JSON_BASE_URL ++ "/CompactData/" ++ dataset ++ "/"
              ++ (freq ++ "." ++ "+".intercalate (pySortedSet (iso2_list.map pyUpper))
                  ++ "." ++ indicator),
             [("startPeriod", start_period), ("endPeriod", end_period)]))
    ∧ (∀ l : List String,
        (pySortedSet l).Sorted (· ≤ ·) ∧ (pySortedSet l).Nodup
          ∧ ∀ a, a ∈ pySortedSet l ↔ a ∈ l)
    ∧ (∀ l₁ l₂ : List String, (l₁.map pyUpper).Perm (l₂.map pyUpper) →
        build_imf_compact_url pyUpper dataset freq indicator l₁ start_period end_period =
          build_imf_compact_url pyUpper dataset freq indicator l₂ start_period end_period) := by
  refine ⟨?_, ?_, ?_⟩
  · intro iso2_list hne
    simp [build_imf_compact_url, List.isEmpty_iff, hne]
  · intro l
    refine ⟨List.sorted_insertionSort _ _, ?_, ?_⟩
    · exact ((List.perm_insertionSort _ _).nodup_iff).mpr (List.nodup_dedup l)
    · intro a
      exact ((List.perm_insertionSort _ _).mem_iff).trans List.mem_dedup
  · intro l₁ l₂ hperm
    have hlen : l₁.length = l₂.length := by
      have := hperm.length_eq
      simpa using this
    rcases l₁ with _ | ⟨a, l₁t⟩
    · rcases l₂ with _ | ⟨b, l₂t⟩
      · rfl
      · simp at hlen
    · rcases l₂ with _ | ⟨b, l₂t⟩
      · simp at hlen
      · simp only [build_imf_compact_url, List.isEmpty_cons]
        rw [pySortedSet_perm_eq hperm]

/-- Witness for C2: concrete instantiation at "CPI"/"M"/"PCPI_IX" with the
already-uppercase area lists ["MX", "US"] and ["US", "MX"], which are
permutations of each other (the upper-casing map is instantiated with the
identity, under which these codes are fixed). -/
theorem imf_compact_key_deterministic_witness :
    (build_imf_compact_url (fun s => s) "CPI" "M" "PCPI_IX" ["MX", "US"] "1990" "2030" =
      .ok (IMF_JSON_BASE_URL ++ "/CompactData/" ++ "CPI" ++ "/"
            ++ ("M" ++ "." ++ "+".intercalate (pySortedSet (["MX", "US"].map (fun s => s)))
                ++ "." ++ "PCPI_IX"),
           [("startPeriod", "1990"), ("endPeriod", "2030")]))
    ∧ build_imf_compact_url (fun s => s) "CPI" "M" "PCPI_IX" ["MX", "US"] "1990" "2030" =
        build_imf_compact_url (fun s => s) "CPI" "M" "PCPI_IX" ["US", "MX"] "1990" "2030" :=
  ⟨(imf_compact_key_deterministic (fun s => s) "CPI" "M" "PCPI_IX" "1990" "2030").1
      ["MX", "US"] (by decide),
   (imf_compact_key_deterministic (fun s => s) "CPI" "M" "PCPI_IX" "1990" "2030").2.2
      ["MX", "US"] ["US", "MX"] (by decide)⟩

/-- Claim C8: a CompactData payload with no Series node under
CompactData.DataSet parses to a frame with exactly the fixed five columns and
zero rows; and every non-empty parse result has that same column list, so the
empty result has the same shape as a non-empty one. -/
theorem imf_compact_empty_series_shape (pfloat : String → Option Rat) :
    (∀ p : CompactPayload, compactSeriesOf p = none →
      imf_compact_to_df pfloat p = { cols := compactCols, rows := [] })
    ∧ (∀ p : CompactPayload, (imf_compact_to_df pfloat p).rows ≠ [] →
      (imf_compact_to_df pfloat p).cols = compactCols) := by
  constructor
  · intro p hp
    simp [imf_compact_to_df, hp]
  · intro p hrows
    rcases hs : compactSeriesOf p with _ | sv
    · simp [imf_compact_to_df, hs]
    · simp only [imf_compact_to_df, hs, pdDataFrameCompact] at hrows ⊢
      rcases hflat : (match sv with
          | .one s => [s]
          | .many l => l).flatMap (seriesRows pfloat) with _ | ⟨r, rs⟩
      · rw [hflat] at hrows
        simp at hrows
      · rw [hflat] at hrows ⊢
        simp

/-- Witness for C8: a payload with the CompactData key absent parses to the
empty fixed-column frame, and a one-series one-observation payload has the
same column list. -/
theorem imf_compact_empty_series_shape_witness :
    imf_compact_to_df (fun _ => none) { compactData := none } =
      { cols := compactCols, rows := [] }
    ∧ (imf_compact_to_df (fun _ => none)
        { compactData := some { dataSet := some { series := some (.one
            { freq := some "M", refArea := some "MX", indicator := some "PCPI_IX",
              obs := .one { timePeriod := some "2020-01", obsValue := some "x" } }) } } }).cols
        = compactCols :=
  ⟨(imf_compact_empty_series_shape (fun _ => none)).1 { compactData := none } rfl,
   (imf_compact_empty_series_shape (fun _ => none)).2 _ (by decide)⟩

/-- Claim C9: the parser normalizes the single-object and singleton-list
shapes of the Series node to the same result, and likewise, inside any series
list, a series whose Obs node is a single object parses identically to the
same series with a singleton Obs list. -/
theorem imf_compact_single_vs_list (pfloat : String → Option Rat)
    (s : SeriesNode) (pre post : List SeriesNode)
    (f r i : Option String) (o : CompactObs) :
    imf_compact_to_df pfloat
        { compactData := some { dataSet := some { series := some (.one s) } } } =
      imf_compact_to_df pfloat
        { compactData := some { dataSet := some { series := some (.many [s]) } } }
    ∧ imf_compact_to_df pfloat
        { compactData := some { dataSet := some { series := some (.many
            (pre ++ { freq := f, refArea := r, indicator := i, obs := .one o } :: post)) } } } =
      imf_compact_to_df pfloat
        { compactData := some { dataSet := some { series := some (.many
            (pre ++ { freq := f, refArea := r, indicator := i, obs := .many [o] } :: post)) } } } := by
  constructor
  · rfl
  · simp [imf_compact_to_df, compactSeriesOf, seriesRows, obsListOf]

/-- Claim C10: when start_year is given and end_year is not, the year list is
range(start_year, start_year + 1), i.e. exactly the single year start_year,
and the data request of imf_dm_fetch_indicator carries the periods parameter
with exactly that one year. -/
theorem imf_dm_start_year_only_single_year (pfloat : String → Option Rat)
    (pint : String → Int) (c r g : List (String × Option String))
    (dataResp : DMPayload) (indicator : String) (ref_areas : Option (List String))
    (s : Int) :
    dmPeriods (some s) none = some [s]
    ∧ dmRequestParams (some s) none = [("periods", toString s)]
    ∧ (imf_dm_fetch_indicator pfloat pint c r g dataResp indicator ref_areas
        (some s) none).2.head? =
        some (.data (dmRequestUrl indicator ref_areas) [("periods", toString s)]) := by
  have hparams : dmRequestParams (some s) none = [("periods", toString s)] := by
    simp only [dmRequestParams, dmPeriods_start_only s, List.map_cons, List.map_nil]
    rfl
  refine ⟨dmPeriods_start_only s, hparams, ?_⟩
  simp only [imf_dm_fetch_indicator, hparams]
  rcases hv : dataResp.values with _ | ⟨v, vs⟩
  · rfl
  · split
    · rfl
    · split
      · rfl
      · simp [List.head?_append]

/-- Claim C3: observation values that are absent, empty, or fail numeric
parsing become null values — never an exception, never 0 — and the rows are
preserved.  Conjuncts: (1) the CompactData per-observation parse yields none
for an absent value, the empty string, or a failing float parse; (2) the
CompactData frame has exactly one row per observation; (3) every observation
appears as a row carrying its parsed value; (4) the DataMapper per-entry
parse yields none for a null value, a failing string parse, or a non-number
non-string value; (5) every DataMapper entry yields a row carrying its
parsed value; (6) the left merge preserves every row together with its
value, rather than dropping it. -/
theorem value_parse_null_propagation :
    (∀ (pfloat : String → Option Rat) (v : Option String),
        v = none ∨ v = some "" ∨ (∃ s, v = some s ∧ pfloat s = none) →
        parseObsValue pfloat v = none)
    ∧ (∀ (pfloat : String → Option Rat) (sl : List SeriesNode),
        (imf_compact_to_df pfloat
            { compactData := some { dataSet := some { series := some (.many sl) } } }).rows.length
          = (sl.map (fun s => (obsListOf s.obs).length)).sum)
    ∧ (∀ (pfloat : String → Option Rat) (sl : List SeriesNode) (s : SeriesNode)
        (ob : CompactObs), s ∈ sl → ob ∈ obsListOf s.obs →
        ({ freq := s.freq, ref_area := s.refArea, indicator := s.indicator,
           time_period := ob.timePeriod,
           value := parseObsValue pfloat ob.obsValue } : CompactRow) ∈
          (imf_compact_to_df pfloat
            { compactData := some { dataSet := some { series := some (.many sl) } } }).rows)
    ∧ (∀ (pfloat : String → Option Rat) (val : DMVal),
        val = .null ∨ (∃ s, val = .str s ∧ pfloat s = none) ∨ val = .other →
        dmParseValue pfloat val = none)
    ∧ (∀ (pfloat : String → Option Rat) (pint : String → Int) (ind : String)
        (sd : List (String × Option (List (String × DMVal))))
        (e : String × Option (List (String × DMVal)))
        (items : List (String × DMVal)) (it : String × DMVal),
        e ∈ sd → e.2 = some items → it ∈ items →
        ({ indicator := ind, refarea := e.1, year := pint it.1,
           value := dmParseValue pfloat it.2 } : DMRowBase) ∈ dmRawRows pfloat pint ind sd)
    ∧ (∀ (rows : List DMRowBase) (ref : List RefAreaRow) (r : DMRowBase), r ∈ rows →
        ∃ r2 ∈ leftMergeRefArea rows ref,
          r2.value = r.value ∧ r2.refarea = r.refarea ∧ r2.year = r.year
            ∧ r2.indicator = r.indicator) := by
  refine ⟨?_, ?_, ?_, ?_, ?_, ?_⟩
  · intro pfloat v hv
    rcases hv with rfl | rfl | ⟨s, rfl, hs⟩
    · rfl
    · rfl
    · by_cases he : s = "" <;> simp [parseObsValue, he, hs]
  · intro pfloat sl
    have h : imf_compact_to_df pfloat
        { compactData := some { dataSet := some { series := some (.many sl) } } }
          = pdDataFrameCompact (sl.flatMap (seriesRows pfloat)) := rfl
    rw [h]
    simp only [pdDataFrameCompact, List.length_flatMap]
    congr 1
    exact List.map_congr_left fun s _ => by simp [seriesRows, Function.comp]
  · intro pfloat sl s ob hs hob
    have h : imf_compact_to_df pfloat
        { compactData := some { dataSet := some { series := some (.many sl) } } }
          = pdDataFrameCompact (sl.flatMap (seriesRows pfloat)) := rfl
    rw [h]
    exact List.mem_flatMap.mpr ⟨s, hs, List.mem_map.mpr ⟨ob, hob, rfl⟩⟩
  · intro pfloat val hval
    rcases hval with rfl | ⟨s, rfl, hs⟩ | rfl
    · rfl
    · simpa [dmParseValue] using hs
    · rfl
  · intro pfloat pint ind sd e items it he hitems hit
    refine List.mem_flatMap.mpr ⟨e, he, ?_⟩
    rw [hitems]
    exact List.mem_map.mpr ⟨it, hit, rfl⟩
  · intro rows ref r hr
    rcases hfil : ref.filter (fun t => t.code == r.refarea) with _ | ⟨t, ts⟩
    · refine ⟨{ indicator := r.indicator, refarea := r.refarea, year := r.year,
                value := r.value, label := none, type := none },
        ?_, rfl, rfl, rfl, rfl⟩
      refine List.mem_flatMap.mpr ⟨r, hr, ?_⟩
      rw [hfil]
      simp
    · refine ⟨{ indicator := r.indicator, refarea := r.refarea, year := r.year,
                value := r.value, label := t.label, type := some t.type },
        ?_, rfl, rfl, rfl, rfl⟩
      refine List.mem_flatMap.mpr ⟨r, hr, ?_⟩
      rw [hfil]
      simp

/-- Witness for C3: concrete null-propagation instances — the empty string
under a float model that would parse it, a failing parse, an absent value,
the DataMapper analogues, and row preservation through the left merge with
an empty reference table. -/
theorem value_parse_null_propagation_witness :
    parseObsValue (fun _ => some 1) (some "") = none
    ∧ parseObsValue (fun _ => none) (some "n/a") = none
    ∧ parseObsValue (fun _ => none) none = none
    ∧ dmParseValue (fun _ => none) (.str "n/a") = none
    ∧ dmParseValue (fun _ => none) .null = none
    ∧ (∃ r2 ∈ leftMergeRefArea
          [{ indicator := "NGDP_RPCH", refarea := "USA", year := 2020, value := none }] [],
        r2.value = (none : Option Rat) ∧ r2.refarea = "USA" ∧ r2.year = 2020
          ∧ r2.indicator = "NGDP_RPCH") :=
  ⟨value_parse_null_propagation.1 (fun _ => some 1) (some "") (Or.inr (Or.inl rfl)),
   value_parse_null_propagation.1 (fun _ => none) (some "n/a")
     (Or.inr (Or.inr ⟨"n/a", rfl, rfl⟩)),
   value_parse_null_propagation.1 (fun _ => none) none (Or.inl rfl),
   value_parse_null_propagation.2.2.2.1 (fun _ => none) (.str "n/a")
     (Or.inr (Or.inl ⟨"n/a", rfl, rfl⟩)),
   value_parse_null_propagation.2.2.2.1 (fun _ => none) .null (Or.inl rfl),
   value_parse_null_propagation.2.2.2.2.2
     [{ indicator := "NGDP_RPCH", refarea := "USA", year := 2020, value := none }] []
     _ (List.mem_singleton.mpr rfl)⟩

/-- A fuzzy-search oracle returning a fixed tuple distinct from every
override entry; used to observe which source a resolution came from. -/
def fuzzyStub : String → Except String (String × String × String) :=
  fun _ => .ok ("ZZ", "ZZZ", "Fuzzyland")

/-- Claim C6 (code bug): the override table does contain the trailing-space
key "North Macedonia " (mapping to MK/MKD), but resolve_country strips the
raw name BEFORE the override lookup, and the stripped form is NOT an
override key — so on the input "North Macedonia " the resolver falls through
to fuzzy matching and returns the fuzzy result, not the override tuple.  The
override entry, added (per the source comment) exactly for the trailing
space variant, is unreachable. -/
theorem resolve_country_trailing_space_override_dead :
    MANUAL_COUNTRY_OVERRIDES.lookup "North Macedonia "
        = some ("MK", "MKD", "North Macedonia")
    ∧ pyStrip "North Macedonia " = "North Macedonia"
    ∧ MANUAL_COUNTRY_OVERRIDES.lookup "North Macedonia" = none
    ∧ resolve_country fuzzyStub "North Macedonia " =
        .ok { raw_name := "North Macedonia ", iso2 := "ZZ", iso3 := "ZZZ",
              official_name := "Fuzzyland" }
    ∧ resolve_country fuzzyStub "North Macedonia " ≠
        .ok { raw_name := "North Macedonia ", iso2 := "MK", iso3 := "MKD",
              official_name := "North Macedonia" } := by
  refine ⟨rfl, rfl, rfl, rfl, ?_⟩
  intro h
  rw [show resolve_country fuzzyStub "North Macedonia " =
      .ok { raw_name := "North Macedonia ", iso2 := "ZZ", iso3 := "ZZZ",
            official_name := "Fuzzyland" } from rfl] at h
  simp at h

/-- Claim C7: the country table has exactly one row per input name in input
order (no deduplication); a row is the resolved record when resolution
succeeds, and the null-code "UNRESOLVED: <cause>" sentinel row when it
fails, without aborting the rest of the batch. -/
theorem build_country_table_rows
    (fuzzy : String → Except String (String × String × String))
    (raw_names : List String) :
    (build_country_table fuzzy raw_names).length = raw_names.length
    ∧ (∀ (i : Nat) (n : String), raw_names[i]? = some n →
        (build_country_table fuzzy raw_names)[i]? =
          some (match resolve_country fuzzy n with
            | .ok c => ({ raw_name := c.raw_name, iso2 := some c.iso2,
                          iso3 := some c.iso3,
                          official_name := c.official_name } : CountryRow)
            | .error exc => ({ raw_name := n, iso2 := none, iso3 := none,
                               official_name := "UNRESOLVED: " ++ exc } : CountryRow)))
    ∧ (∀ (i : Nat) (n exc : String), raw_names[i]? = some n →
        resolve_country fuzzy n = .error exc →
        (build_country_table fuzzy raw_names)[i]? =
          some ({ raw_name := n, iso2 := none, iso3 := none,
                  official_name := "UNRESOLVED: " ++ exc } : CountryRow)) := by
  refine ⟨List.length_map _ _, ?_, ?_⟩
  · intro i n hn
    simp [build_country_table, List.getElem?_map, hn]
  · intro i n exc hn hres
    simp [build_country_table, List.getElem?_map, hn, hres]

/-- A fuzzy-search oracle that fails on every input, carrying the input in
its message. -/
def fuzzyFail : String → Except String (String × String × String) :=
  fun s => .error ("no fuzzy match for " ++ s)

/-- Witness for C7: the two-name batch from the spec — "Kosovo" resolves via
the override even though fuzzy matching fails everywhere, while the second
name yields the UNRESOLVED sentinel row, and neither interferes with the
other. -/
theorem build_country_table_rows_witness :
    (build_country_table fuzzyFail ["Kosovo", "Nonexistent Place XYZ"]).length = 2
    ∧ (build_country_table fuzzyFail ["Kosovo", "Nonexistent Place XYZ"])[1]? =
        some { raw_name := "Nonexistent Place XYZ", iso2 := none, iso3 := none,
               official_name := "UNRESOLVED: " ++ "no fuzzy match for Nonexistent Place XYZ" }
    ∧ (build_country_table fuzzyFail ["Kosovo", "Nonexistent Place XYZ"])[0]? =
        some { raw_name := "Kosovo", iso2 := some "XK", iso3 := some "XKX",
               official_name := "Kosovo" } := by
  refine ⟨(build_country_table_rows fuzzyFail ["Kosovo", "Nonexistent Place XYZ"]).1, ?_, ?_⟩
  · exact (build_country_table_rows fuzzyFail ["Kosovo", "Nonexistent Place XYZ"]).2.2
      1 "Nonexistent Place XYZ" "no fuzzy match for Nonexistent Place XYZ" rfl rfl
  · have h := (build_country_table_rows fuzzyFail ["Kosovo", "Nonexistent Place XYZ"]).2.1
      0 "Kosovo" rfl
    rw [h]
    rfl

/-- A transport whose responses never parse as JSON, echoing the request URL
back as the final URL. -/
def httpNotJson : String → List (String × String) → HttpTextResponse :=
  fun u _ => { text := "<html>gateway timeout</html>", json := none, finalUrl := u }

/-- Counterexample for C4: on a non-JSON body, fetch_imf_series (the
pull function of the adapter) does NOT propagate a parse error to its caller — it
returns a normal .ok result holding an empty fixed-column frame and the raw
text.  Only the imf_compact_request wrapper raises; fetch_imf_series calls
imf_compact_request_raw directly and swallows the failure. -/
theorem fetch_imf_series_swallows_parse_failure :
    fetch_imf_series (fun s => s) (fun _ => none) httpNotJson
        "CPI" "M" "PCPI_IX" ["MX"] "1990" "2030"
      = .ok ({ cols := compactCols, rows := [] }, "<html>gateway timeout</html>") := rfl

/-- Claim C4 (amended): when the response body is not valid JSON,
imf_compact_request fails with the ValueError carrying the final URL and the
first 300 characters of the body; fetch_imf_series, which calls the raw
request directly, instead swallows the parse failure and returns an empty
fixed-column frame together with the raw text. -/
theorem imf_compact_parse_failure_behavior (pyUpper : String → String)
    (pfloat : String → Option Rat)
    (http : String → List (String × String) → HttpTextResponse)
    (dataset freq indicator : String) (iso2_list : List String)
    (start_period end_period : String) (url : String) (params : List (String × String))
    (hurl : build_imf_compact_url pyUpper dataset freq indicator iso2_list
        start_period end_period = .ok (url, params))
    (hjson : (http url params).json = none) :
    imf_compact_request pyUpper http dataset freq indicator iso2_list
        start_period end_period
      = .error (.notJson (http url params).finalUrl ((http url params).text.take 300))
    ∧ fetch_imf_series pyUpper pfloat http dataset freq indicator iso2_list
        start_period end_period
      = .ok ({ cols := compactCols, rows := [] }, (http url params).text) := by
  constructor
  · simp [imf_compact_request, imf_compact_request_raw, hurl, hjson]
  · simp [fetch_imf_series, imf_compact_request_raw, hurl, hjson]

/-- Witness for C4 (amended): the concrete non-JSON transport; the request
URL and leading body bytes appear in the error of imf_compact_request while
fetch_imf_series returns .ok with the empty frame. -/
theorem imf_compact_parse_failure_behavior_witness :
    imf_compact_request (fun s => s) httpNotJson "CPI" "M" "PCPI_IX" ["MX"] "1990" "2030"
      = .error (.notJson
          "https://dataservices.imf.org/REST/SDMX_JSON.svc/CompactData/CPI/M.MX.PCPI_IX"
          ("<html>gateway timeout</html>".take 300))
    ∧ fetch_imf_series (fun s => s) (fun _ => none) httpNotJson
        "CPI" "M" "PCPI_IX" ["MX"] "1990" "2030"
      = .ok ({ cols := compactCols, rows := [] }, "<html>gateway timeout</html>") :=
  imf_compact_parse_failure_behavior (fun s => s) (fun _ => none) httpNotJson
    "CPI" "M" "PCPI_IX" ["MX"] "1990" "2030"
    "https://dataservices.imf.org/REST/SDMX_JSON.svc/CompactData/CPI/M.MX.PCPI_IX"
    [("startPeriod", "1990"), ("endPeriod", "2030")] rfl rfl

/-- A one-indicator one-area one-year DataMapper payload, producing exactly
one data row. -/
def dmPayloadOneRow : DMPayload :=
  { values := [("PCPIPCH", [("USA", some [("2020", DMVal.num 3)])])] }

/-- Counterexample for C5: the DataMapper adapter has no cache — a call that
attaches labels issues the countries metadata request, and a process that
performs the same call twice issues it twice (the request trace of two
back-to-back calls contains two countries-endpoint GETs, not one). -/
theorem imf_dm_metadata_not_cached_cex :
    ((imf_dm_fetch_indicator (fun _ => none) (fun _ => 0) [] [] [] dmPayloadOneRow
        "PCPIPCH" none none none).2.count DMRequest.metaCountries = 1)
    ∧ (((imf_dm_fetch_indicator (fun _ => none) (fun _ => 0) [] [] [] dmPayloadOneRow
          "PCPIPCH" none none none).2
        ++ (imf_dm_fetch_indicator (fun _ => none) (fun _ => 0) [] [] [] dmPayloadOneRow
          "PCPIPCH" none none none).2).count DMRequest.metaCountries = 2) :=
  ⟨rfl, rfl⟩

/-- Claim C5 (amended): the reference-area metadata endpoints are requested
exactly once by EVERY call of imf_dm_fetch_indicator whose result has at
least one row, and not at all by calls returning an empty frame; nothing is
cached across calls (the request trace of each call is a pure function of its
inputs). -/
theorem imf_dm_metadata_fetched_every_labelled_call
    (pfloat : String → Option Rat) (pint : String → Int)
    (c r g : List (String × Option String)) (dataResp : DMPayload)
    (indicator : String) (ref_areas : Option (List String))
    (start_year end_year : Option Int) :
    ((imf_dm_fetch_indicator pfloat pint c r g dataResp indicator ref_areas
        start_year end_year).2.count DMRequest.metaCountries,
     (imf_dm_fetch_indicator pfloat pint c r g dataResp indicator ref_areas
        start_year end_year).2.count DMRequest.metaRegions,
     (imf_dm_fetch_indicator pfloat pint c r g dataResp indicator ref_areas
        start_year end_year).2.count DMRequest.metaGroups)
      = if (imf_dm_fetch_indicator pfloat pint c r g dataResp indicator ref_areas
            start_year end_year).1.rows.isEmpty
        then (0, 0, 0) else (1, 1, 1) := by
  rcases hv : dataResp.values with _ | ⟨v, vs⟩
  · simp only [imf_dm_fetch_indicator, hv]
    rfl
  · simp only [imf_dm_fetch_indicator, hv]
    split
    · rfl
    · rename_i hrows
      have hne : dmRawRows pfloat pint indicator
          (match (v :: vs).lookup indicator with
            | some sd => sd
            | none => v.2) ≠ [] := by
        intro hnil
        rw [hnil] at hrows
        exact hrows rfl
      have hm := leftMergeRefArea_ne_nil (imf_dm_ref_areas c r g).1 hne
      rcases hmerged : leftMergeRefArea (dmRawRows pfloat pint indicator
          (match (v :: vs).lookup indicator with
            | some sd => sd
            | none => v.2)) (imf_dm_ref_areas c r g).1 with _ | ⟨m, ms⟩
      · exact absurd hmerged hm
      · rfl

/-- Invariant of the pagination loop under totals that are consistent across
pages (every delivered page reports the same total T, as the World Bank
protocol does): started at any page within range with enough fuel, the loop
returns: it makes k further requests, appends exactly the data rows of pages
page..page+k-1 in page order, stops at a page that is either break-shaped or
has reached the total, and every earlier page was a data page strictly below
the total. -/
lemma wb_fetch_loop_spec (resp : Nat → WBPage) (T : Nat)
    (hT : ∀ p t d, resp p = some (t, d) → t = T) :
    ∀ fuel page acc reqs, 1 ≤ page → page ≤ T + 1 → T + 2 ≤ page + fuel →
    ∃ k, 1 ≤ k
      ∧ wb_fetch_loop resp fuel page acc reqs
          = some (acc ++ ((List.range' page k).map (wbPageData resp)).flatten, reqs + k)
      ∧ (resp (page + k - 1) = none
          ∨ ∃ d, resp (page + k - 1) = some (T, d) ∧ T ≤ page + k - 1)
      ∧ (∀ q, page ≤ q → q < page + k - 1 → ∃ d, resp q = some (T, d) ∧ q < T) := by
  intro fuel
  induction fuel with
  | zero =>
      intro page acc reqs h1 h2 h3
      exfalso
      omega
  | succ fuel ih =>
      intro page acc reqs h1 h2 h3
      rcases hresp : resp page with _ | ⟨t, d⟩
      · refine ⟨1, le_refl 1, ?_, Or.inl (by simpa using hresp), ?_⟩
        · simp only [wb_fetch_loop, hresp]
          simp [wbPageData, hresp]
        · intro q hq1 hq2
          omega
      · have ht := hT page t d hresp
        subst ht
        by_cases hle : t ≤ page
        · refine ⟨1, le_refl 1, ?_, Or.inr ⟨d, by simpa using hresp, by simpa using hle⟩, ?_⟩
          · simp only [wb_fetch_loop, hresp, if_pos hle]
            simp [wbPageData, hresp]
          · intro q hq1 hq2
            omega
        · obtain ⟨k, hk1, hkeq, hkstop, hkprom⟩ :=
            ih (page + 1) (acc ++ d.map wbRowOf) (reqs + 1) (by omega) (by omega) (by omega)
          refine ⟨k + 1, by omega, ?_, ?_, ?_⟩
          · simp only [wb_fetch_loop, hresp, if_neg hle]
            rw [hkeq]
            have harith : reqs + 1 + k = reqs + (k + 1) := by omega
            rw [harith, List.range'_succ]
            simp [wbPageData, hresp, List.append_assoc]
          · have harith : page + (k + 1) - 1 = page + 1 + k - 1 := by omega
            rw [harith]
            exact hkstop
          · intro q hq1 hq2
            rcases eq_or_lt_of_le hq1 with heq | hlt2
            · exact ⟨d, by rw [← heq]; exact hresp, by omega⟩
            · exact hkprom q (by omega) (by omega)

/-- Adding fuel never changes a loop run that already returned. -/
lemma wb_fetch_loop_mono (resp : Nat → WBPage) :
    ∀ fuel fuel2 page acc reqs res, fuel ≤ fuel2 →
      wb_fetch_loop resp fuel page acc reqs = some res →
      wb_fetch_loop resp fuel2 page acc reqs = some res := by
  intro fuel
  induction fuel with
  | zero =>
      intro fuel2 page acc reqs res _ h
      simp [wb_fetch_loop] at h
  | succ fuel ih =>
      intro fuel2 page acc reqs res hle h
      rcases fuel2 with _ | fuel2
      · omega
      · rcases hresp : resp page with _ | ⟨t, d⟩
        · simp only [wb_fetch_loop, hresp] at h ⊢
          exact h
        · simp only [wb_fetch_loop, hresp] at h ⊢
          by_cases hc : t ≤ page
          · simp only [if_pos hc] at h ⊢
            exact h
          · simp only [if_neg hc] at h ⊢
            exact ih fuel2 _ _ _ _ (by omega) h

/-- Claim C1: for every simulated response sequence with a consistent
reported total T (the metadata of page 1 and of every other delivered page reports
T), the pagination loop of wb_fetch_indicator terminates — any fuel of at
least T + 1 yields the same fixed result — and the result accumulates
exactly the data rows of pages 1..reqs once each, in page order, stopping at
the first page that is break-shaped (null/missing data) or has reached the
reported total; in particular, when page 1 already reports a total of 1
page, exactly one request is issued. -/
theorem wb_fetch_indicator_pagination (resp : Nat → WBPage) (T : Nat)
    (hT : ∀ p t d, resp p = some (t, d) → t = T) :
    ∃ rows reqs,
      (∀ fuel, T + 1 ≤ fuel → wb_fetch_loop resp fuel 1 [] 0 = some (rows, reqs))
      ∧ rows = ((List.range' 1 reqs).map (wbPageData resp)).flatten
      ∧ 1 ≤ reqs ∧ reqs ≤ max T 1
      ∧ (resp reqs = none ∨ ∃ d, resp reqs = some (T, d) ∧ T ≤ reqs)
      ∧ (∀ q, 1 ≤ q → q < reqs → ∃ d, resp q = some (T, d) ∧ q < T)
      ∧ (∀ d, resp 1 = some (1, d) → reqs = 1) := by
  obtain ⟨k, hk1, hkeq, hkstop, hkprom⟩ :=
    wb_fetch_loop_spec resp T hT (T + 1) 1 [] 0 (le_refl 1) (by omega) (by omega)
  have hidx : 1 + k - 1 = k := by omega
  rw [hidx] at hkstop
  simp only [List.nil_append, Nat.zero_add] at hkeq
  refine ⟨((List.range' 1 k).map (wbPageData resp)).flatten, k, ?_, rfl, hk1, ?_, hkstop,
    ?_, ?_⟩
  · intro fuel hf
    exact wb_fetch_loop_mono resp (T + 1) fuel 1 [] 0 _ hf hkeq
  · rcases Nat.lt_or_ge k 2 with h2 | h2
    · have hk : k = 1 := by omega
      rw [hk]
      exact Nat.le_max_right T 1
    · obtain ⟨d, _hd, hqT⟩ := hkprom (k - 1) (by omega) (by omega)
      have : k ≤ T := by omega
      exact le_trans this (Nat.le_max_left T 1)
  · intro q hq1 hq2
    exact hkprom q hq1 (by omega)
  · intro d hd
    have h1T := hT 1 1 d hd
    by_contra hne
    have h2 : 2 ≤ k := by omega
    obtain ⟨d2, _hd2, hq⟩ := hkprom 1 (le_refl 1) (by omega)
    omega

/-- One observation of the simulated World Bank pages, tagged by its page. -/
def wbObsPage (p : Nat) : WBObsEntry :=
  { countryValue := "Mexico", countryIso3 := "MEX",
    indicatorId := "NY.GDP.MKTP.KD.ZG", date := toString (2000 + p),
    value := some ((p : Nat) : Rat) }

/-- A simulated 3-page response sequence: pages 1..3 each carry one data row
and report a total of 3 pages; later pages are break-shaped. -/
def wbResp3 : Nat → WBPage :=
  fun p => if p ≤ 3 then some (3, [wbObsPage p]) else none

/-- A simulated sequence whose page 1 already reports a total of 1 page. -/
def wbResp1 : Nat → WBPage :=
  fun p => if p = 1 then some (1, [wbObsPage 1]) else none

/-- Witness for C1: the pagination theorem applied to the concrete 3-page
sequence and to the concrete single-page sequence, with the consistent-total
hypotheses discharged. -/
theorem wb_fetch_indicator_pagination_witness :
    (∀ p t d, wbResp3 p = some (t, d) → t = 3)
    ∧ (∃ rows reqs,
        (∀ fuel, 3 + 1 ≤ fuel → wb_fetch_loop wbResp3 fuel 1 [] 0 = some (rows, reqs))
        ∧ rows = ((List.range' 1 reqs).map (wbPageData wbResp3)).flatten
        ∧ 1 ≤ reqs ∧ reqs ≤ max 3 1
        ∧ (wbResp3 reqs = none ∨ ∃ d, wbResp3 reqs = some (3, d) ∧ 3 ≤ reqs)
        ∧ (∀ q, 1 ≤ q → q < reqs → ∃ d, wbResp3 q = some (3, d) ∧ q < 3)
        ∧ (∀ d, wbResp3 1 = some (1, d) → reqs = 1))
    ∧ (∀ p t d, wbResp1 p = some (t, d) → t = 1)
    ∧ (∃ rows reqs,
        (∀ fuel, 1 + 1 ≤ fuel → wb_fetch_loop wbResp1 fuel 1 [] 0 = some (rows, reqs))
        ∧ rows = ((List.range' 1 reqs).map (wbPageData wbResp1)).flatten
        ∧ 1 ≤ reqs ∧ reqs ≤ max 1 1
        ∧ (wbResp1 reqs = none ∨ ∃ d, wbResp1 reqs = some (1, d) ∧ 1 ≤ reqs)
        ∧ (∀ q, 1 ≤ q → q < reqs → ∃ d, wbResp1 q = some (1, d) ∧ q < 1)
        ∧ (∀ d, wbResp1 1 = some (1, d) → reqs = 1)) := by
  have hT3 : ∀ p t d, wbResp3 p = some (t, d) → t = 3 := by
    intro p t d h
    by_cases hp : p ≤ 3
    · simp only [wbResp3, if_pos hp, Option.some.injEq, Prod.mk.injEq] at h
      omega
    · simp [wbResp3, if_neg hp] at h
  have hT1 : ∀ p t d, wbResp1 p = some (t, d) → t = 1 := by
    intro p t d h
    by_cases hp : p = 1
    · simp only [wbResp1, if_pos hp, Option.some.injEq, Prod.mk.injEq] at h
      omega
    · simp [wbResp1, if_neg hp] at h
  exact ⟨hT3, wb_fetch_indicator_pagination wbResp3 3 hT3,
         hT1, wb_fetch_indicator_pagination wbResp1 1 hT1⟩
